import Mathlib

set_option autoImplicit false
set_option maxHeartbeats 1000000

/-!
Verification development for the archive-then-replace upsert pipelines of the
CPT_Automation_scripts repository.

The repository contains four near-identical Supabase handler classes
(`Fair_Health_Facility`, `Fair_Health_Physicians`, `Medicare_Clinical_Fees`,
`New_Jersey_DOBI`), each exposing an `insert_records` method which performs the
select -> archive -> delete -> insert -> log sequence against a remote store,
and one pandas data processor (`Medicare_ASC_Addenda/data_processor.py`).

The remote store is an external collaborator: every remote call's outcome is
supplied by an environment `Env` (one response per call site of a run), and the
embedding records the calls actually issued, in order, as a list of `Event`s.
Each handler's `insert_records` is translated statement by statement from its
Python source into a function `Env -> List Record -> List Event × Outcome`.
-/

/-- A scalar field value of a store record (string, integer number, or null). -/
inductive Value
  | s (v : String)
  | i (v : Int)
  | null
  deriving Repr, DecidableEq

/-- A record: a mapping from field names to scalar values (a Python dict,
modelled as an association list). -/
abbrev Record := List (String × Value)

/-- A Python exception as observed by the handlers: either a postgrest
`APIError` (with `message` and `details` attributes) or a plain `Exception`
carrying a message. -/
inductive PyExc
  | apiError (message details : String)
  | generic (message : String)
  deriving Repr, DecidableEq

/-- Model of Python `str(e)` on an exception: its message text. -/
def PyExc.str : PyExc → String
  | .apiError m _ => m
  | .generic m => m

/-- A row of the logging table: `{"script": ..., "message": ...}`. -/
structure LogEntry where
  script : String
  message : String
  deriving Repr, DecidableEq

/-- A postgrest filter as used by the handlers: `.in_(column, values)` or
`.eq(column, value)`. -/
inductive DFilter
  | inList (column : String) (values : List String)
  | eqVal (column : String) (value : String)
  deriving Repr, DecidableEq

/-- A remote store call issued by a pipeline run, with its arguments. -/
inductive Event
  | selectCall (table : String) (filter : DFilter)
  | insertCall (table : String) (payload : List Record)
  | deleteCall (table : String) (filter : DFilter)
  | logCall (table : String) (entry : LogEntry)
  deriving Repr, DecidableEq

instance {ε α : Type} [DecidableEq ε] [DecidableEq α] : DecidableEq (Except ε α) :=
  fun x y =>
    match x, y with
    | .ok a, .ok b =>
        if h : a = b then isTrue (by rw [h]) else isFalse (by intro hc; cases hc; exact h rfl)
    | .error a, .error b =>
        if h : a = b then isTrue (by rw [h]) else isFalse (by intro hc; cases hc; exact h rfl)
    | .ok _, .error _ => isFalse (by intro hc; cases hc)
    | .error _, .ok _ => isFalse (by intro hc; cases hc)

/-- The environment of one `insert_records` run: the outcome the remote store
gives to each of the (at most five) calls the run can issue, plus the wall
clock text produced by `datetime.now().strftime(...)`. `insertResp` is the
`data` attribute of the live-table insert response (`none` models a response
whose `data` is `None`). -/
structure Env where
  selectResp : Except PyExc (List Record)
  archiveResp : Except PyExc Unit
  deleteResp : Except PyExc Unit
  insertResp : Except PyExc (Option (List Record))
  logResp : Except PyExc Unit
  now : String
  deriving Repr, DecidableEq

/-- A value of the result dict returned by `insert_records`. -/
inductive RVal
  | s (v : String)
  | n (v : Nat)
  | b (v : Bool)
  deriving Repr, DecidableEq

/-- The dict returned by `insert_records`, as an association list. -/
abbrev ResultDict := List (String × RVal)

/-- How an `insert_records` call ends: it returns a result dict, or an
exception propagates to the caller. -/
inductive Outcome
  | ok (result : ResultDict)
  | raised (e : PyExc)
  deriving Repr, DecidableEq

/-- Insert a comma after every three characters of a reversed digit list
(helper for Python's `{:,}` format). -/
def commaRev : List Char → List Char
  | a :: b :: c :: d :: rest => a :: b :: c :: ',' :: commaRev (d :: rest)
  | l => l

/-- Python's `f"{n:,}"`: decimal digits grouped in threes by commas. -/
def fmtComma (n : Nat) : String :=
  String.mk ((commaRev (toString n).data.reverse).reverse)

/-- The dict comprehension `{k: v for k, v in record.items() if k != 'id'}`
used by every handler to build a historical record. -/
def strip_id (record : Record) : Record :=
  record.filter (fun kv => kv.1 != "id")

/-- Is this event a delete on some table? -/
def isDeleteEvent : Event → Bool
  | .deleteCall _ _ => true
  | _ => false

/-- Is this event an insert into the shared historical table? -/
def isArchiveEvent : Event → Bool
  | .insertCall t _ => t == "historical_medical_benchmarking_data"
  | _ => false

/-- Scans a trace left to right; `true` iff every delete event is preceded by
an insert into the historical table. The first argument is the accumulator
"an archive insert has already been seen". -/
def archive_before_delete : Bool → List Event → Bool
  | _, [] => true
  | seen, e :: rest =>
    if isDeleteEvent e && !seen then false
    else archive_before_delete (seen || isArchiveEvent e) rest

namespace SupabaseHandlerFairHealth

def updated_table : String := "updated_medical_benchmarking_data"
def historical_table : String := "historical_medical_benchmarking_data"
def logging_table : String := "logging_table"
def script_name : String := "Fairhealth Facility"
def data_types : List String := ["Facility USA", "Facility 070", "Facility 074"]

/-- `_create_log_message` of `Fair_Health_Facility/database.py`. -/
def _create_log_message (archived_count inserted_count : Nat) (timestamp : String) : String :=
  if archived_count > 0 then
    script_name ++ ": Archived " ++ fmtComma archived_count ++ " old records and inserted " ++
      fmtComma inserted_count ++ " new records (" ++ timestamp ++ ")"
  else
    script_name ++ ": Inserted " ++ fmtComma inserted_count ++ " new records (" ++
      timestamp ++ ")"

/-- `_log_operation` of `Fair_Health_Facility/database.py`: issues the
logging-table insert and returns the issued calls together with the console
(logger) lines it emits; a failing insert is caught inside and only reported
on the console. -/
def _log_operation (env : Env) (message : String) (success : Bool) :
    List Event × List String :=
  match env.logResp with
  | .ok _ =>
      ([Event.logCall logging_table ⟨script_name, message⟩],
       [(if success then "✅" else "❌") ++ " Logged to DB: " ++ message])
  | .error e =>
      ([Event.logCall logging_table ⟨script_name, message⟩],
       ["⚠️ Failed to write to logging_table: " ++ e.str])

/-- The `error_msg` built by the two `except` clauses of
`Fair_Health_Facility/database.py` (`except APIError` / `except Exception`). -/
def error_text : PyExc → String
  | .apiError m d => "API Error: " ++ m ++ " (Details: " ++ d ++ ")"
  | .generic m => "Unexpected Error: " ++ m

/-- The `except` clauses of `insert_records`: log `"Failed: <error_msg>"`
best-effort, then re-raise the original exception. -/
def handle_error (env : Env) (evs : List Event) (e : PyExc) : List Event × Outcome :=
  (evs ++ (_log_operation env ("Failed: " ++ error_text e) false).1, .raised e)

/-- The success return dict of `insert_records`. -/
def success_result (actual_inserted records_to_archive : Nat) : ResultDict :=
  [("status", RVal.s "success"),
   ("records_inserted", RVal.n actual_inserted),
   ("records_archived", RVal.n records_to_archive),
   ("table", RVal.s updated_table)]

/-- The early-return dict of `insert_records` for an empty input list. -/
def no_records_result : ResultDict :=
  [("status", RVal.s "no_records"),
   ("records_inserted", RVal.n 0),
   ("table", RVal.s updated_table),
   ("records_archived", RVal.n 0)]

/-- STEP 4 (insert new records) and STEP 5 (log) of `insert_records`. -/
def step4_insert (env : Env) (records : List Record) (records_to_archive : Nat)
    (evs : List Event) : List Event × Outcome :=
  let evs := evs ++ [Event.insertCall updated_table records]
  match env.insertResp with
  | .error e => handle_error env evs e
  | .ok data =>
      let actual_inserted :=
        match data with
        | some l => if l.isEmpty then 0 else l.length
        | none => 0
      let log_message := _create_log_message records_to_archive actual_inserted env.now
      (evs ++ (_log_operation env log_message true).1,
       .ok (success_result actual_inserted records_to_archive))

/-- STEP 3 (delete old records) of `insert_records`. -/
def step3_delete (env : Env) (records : List Record) (records_to_archive : Nat)
    (evs : List Event) : List Event × Outcome :=
  if records_to_archive > 0 then
    let evs := evs ++ [Event.deleteCall updated_table (DFilter.inList "data_type" data_types)]
    match env.deleteResp with
    | .error e => handle_error env evs e
    | .ok _ => step4_insert env records records_to_archive evs
  else
    step4_insert env records records_to_archive evs

/-- STEP 2 (archive to historical) of `insert_records`. -/
def step2_archive (env : Env) (records existing_records : List Record)
    (evs : List Event) : List Event × Outcome :=
  let records_to_archive := existing_records.length
  if records_to_archive > 0 then
    let records_for_history := existing_records.map strip_id
    let evs := evs ++ [Event.insertCall historical_table records_for_history]
    match env.archiveResp with
    | .error e => handle_error env evs e
    | .ok _ => step3_delete env records records_to_archive evs
  else
    step3_delete env records records_to_archive evs

/-- `insert_records` of `Fair_Health_Facility/database.py`. -/
def insert_records (env : Env) (records : List Record) : List Event × Outcome :=
  if records.isEmpty then
    ([], .ok no_records_result)
  else
    let evs := [Event.selectCall updated_table (DFilter.inList "data_type" data_types)]
    match env.selectResp with
    | .error e => handle_error env evs e
    | .ok existing_records => step2_archive env records existing_records evs

end SupabaseHandlerFairHealth

namespace SupabaseHandlerCLFS

def updated_table : String := "updated_medical_benchmarking_data"
def historical_table : String := "historical_medical_benchmarking_data"
def logging_table : String := "logging_table"
def script_name : String := "Medicare Clinical Fees"
def data_type : String := "Medicare Lab"

/-- `_create_log_message` of `Medicare_Clinical_Fees/database.py`. -/
def _create_log_message (archived_count inserted_count : Nat) (timestamp : String) : String :=
  if archived_count > 0 then
    script_name ++ ": Archived " ++ fmtComma archived_count ++ " old records and inserted " ++
      fmtComma inserted_count ++ " new records (" ++ timestamp ++ ")"
  else
    script_name ++ ": Inserted " ++ fmtComma inserted_count ++ " new records (" ++
      timestamp ++ ")"

/-- `_log_operation` of `Medicare_Clinical_Fees/database.py`: a failing
logging-table insert is caught inside and only reported on the console. -/
def _log_operation (env : Env) (message : String) (success : Bool) :
    List Event × List String :=
  match env.logResp with
  | .ok _ =>
      ([Event.logCall logging_table ⟨script_name, message⟩],
       [(if success then "✅" else "❌") ++ " Logged to database: " ++ message])
  | .error e =>
      ([Event.logCall logging_table ⟨script_name, message⟩],
       ["⚠️ Failed to write log entry: " ++ e.str])

/-- The single `except Exception` clause of `insert_records`: build
`"Failed to process <script>: <str(e)>"`, log it best-effort, then raise a NEW
plain `Exception` carrying that message (the original exception object is not
re-raised). -/
def handle_error (env : Env) (evs : List Event) (e : PyExc) : List Event × Outcome :=
  let error_message := "Failed to process " ++ script_name ++ ": " ++ e.str
  (evs ++ (_log_operation env error_message false).1, .raised (.generic error_message))

/-- The success return dict of `insert_records`. -/
def success_result (records_to_insert records_to_archive : Nat) : ResultDict :=
  [("status", RVal.s "success"),
   ("records_inserted", RVal.n records_to_insert),
   ("records_archived", RVal.n records_to_archive),
   ("records_deleted", RVal.n records_to_archive),
   ("table", RVal.s updated_table),
   ("script_name", RVal.s script_name)]

/-- The early-return dict of `insert_records` for an empty input list. -/
def no_records_result : ResultDict :=
  [("status", RVal.s "no_records"),
   ("records_inserted", RVal.n 0),
   ("table", RVal.s updated_table),
   ("records_archived", RVal.n 0),
   ("records_deleted", RVal.n 0)]

/-- STEP 4 (insert new records) and STEP 5 (log) of `insert_records`; the
response's `data` is never read, `records_inserted` is `len(records)`. -/
def step4_insert (env : Env) (records : List Record) (records_to_archive : Nat)
    (evs : List Event) : List Event × Outcome :=
  let records_to_insert := records.length
  let evs := evs ++ [Event.insertCall updated_table records]
  match env.insertResp with
  | .error e => handle_error env evs e
  | .ok _ =>
      let log_message := _create_log_message records_to_archive records_to_insert env.now
      (evs ++ (_log_operation env log_message true).1,
       .ok (success_result records_to_insert records_to_archive))

/-- STEP 3 (delete old records) of `insert_records`. -/
def step3_delete (env : Env) (records : List Record) (records_to_archive : Nat)
    (evs : List Event) : List Event × Outcome :=
  if records_to_archive > 0 then
    let evs := evs ++ [Event.deleteCall updated_table (DFilter.eqVal "data_type" data_type)]
    match env.deleteResp with
    | .error e => handle_error env evs e
    | .ok _ => step4_insert env records records_to_archive evs
  else
    step4_insert env records records_to_archive evs

/-- STEP 2 (archive to historical) of `insert_records`. -/
def step2_archive (env : Env) (records existing_records : List Record)
    (evs : List Event) : List Event × Outcome :=
  let records_to_archive := existing_records.length
  if records_to_archive > 0 then
    let records_for_history := existing_records.map strip_id
    let evs := evs ++ [Event.insertCall historical_table records_for_history]
    match env.archiveResp with
    | .error e => handle_error env evs e
    | .ok _ => step3_delete env records records_to_archive evs
  else
    step3_delete env records records_to_archive evs

/-- `insert_records` of `Medicare_Clinical_Fees/database.py`. -/
def insert_records (env : Env) (records : List Record) : List Event × Outcome :=
  if records.isEmpty then
    ([], .ok no_records_result)
  else
    let evs := [Event.selectCall updated_table (DFilter.eqVal "data_type" data_type)]
    match env.selectResp with
    | .error e => handle_error env evs e
    | .ok existing_records => step2_archive env records existing_records evs

end SupabaseHandlerCLFS

namespace SupabaseHandler

def updated_table : String := "updated_medical_benchmarking_data"
def historical_table : String := "historical_medical_benchmarking_data"
def logging_table : String := "logging_table"
def script_name : String := "New Jersey DOBI"
def data_types : List String := ["Facility PIP", "Physician PIP"]

/-- `_create_log_message` of `New_Jersey_DOBI/database.py`. -/
def _create_log_message (archived_count inserted_count : Nat) (timestamp : String) : String :=
  if archived_count > 0 then
    script_name ++ ": Archived " ++ fmtComma archived_count ++ " old records and inserted " ++
      fmtComma inserted_count ++ " new records (" ++ timestamp ++ ")"
  else
    script_name ++ ": Inserted " ++ fmtComma inserted_count ++ " new records (" ++
      timestamp ++ ")"

/-- `_log_operation` of `New_Jersey_DOBI/database.py`. -/
def _log_operation (env : Env) (message : String) (success : Bool) :
    List Event × List String :=
  match env.logResp with
  | .ok _ =>
      ([Event.logCall logging_table ⟨script_name, message⟩],
       [(if success then "✅" else "❌") ++ " Logged to database: " ++ message])
  | .error e =>
      ([Event.logCall logging_table ⟨script_name, message⟩],
       ["⚠️ Failed to write log entry: " ++ e.str])

/-- The failure text logged by the two `except` clauses of `insert_records`:
`"Failed to process <script>: API Error - <message>"` for an `APIError`,
`"Failed to process <script>: <str(e)>"` otherwise. -/
def error_message : PyExc → String
  | .apiError m _ => "Failed to process " ++ script_name ++ ": API Error - " ++ m
  | .generic m => "Failed to process " ++ script_name ++ ": " ++ m

/-- What the two `except` clauses raise: an `APIError` is re-raised as-is
(`raise`); any other exception is replaced by a NEW plain `Exception`
carrying the composed failure text. -/
def raised_exc : PyExc → PyExc
  | .apiError m d => .apiError m d
  | .generic m => .generic ("Failed to process " ++ script_name ++ ": " ++ m)

/-- The two `except` clauses of `insert_records`: log the failure text
best-effort, then raise. -/
def handle_error (env : Env) (evs : List Event) (e : PyExc) : List Event × Outcome :=
  (evs ++ (_log_operation env (error_message e) false).1, .raised (raised_exc e))

/-- The success return dict of `insert_records`. -/
def success_result (records_to_insert records_to_archive : Nat) : ResultDict :=
  [("status", RVal.s "success"),
   ("records_inserted", RVal.n records_to_insert),
   ("records_archived", RVal.n records_to_archive),
   ("records_deleted", RVal.n records_to_archive),
   ("table", RVal.s updated_table),
   ("script_name", RVal.s script_name)]

/-- The early-return dict of `insert_records` for an empty input list. -/
def no_records_result : ResultDict :=
  [("status", RVal.s "no_records"),
   ("records_inserted", RVal.n 0),
   ("table", RVal.s updated_table),
   ("records_archived", RVal.n 0),
   ("records_deleted", RVal.n 0)]

/-- STEP 4 (insert new records) and STEP 5 (log) of `insert_records`; the
response's `data` is never read, `records_inserted` is `len(records)`. -/
def step4_insert (env : Env) (records : List Record) (records_to_archive : Nat)
    (evs : List Event) : List Event × Outcome :=
  let records_to_insert := records.length
  let evs := evs ++ [Event.insertCall updated_table records]
  match env.insertResp with
  | .error e => handle_error env evs e
  | .ok _ =>
      let log_message := _create_log_message records_to_archive records_to_insert env.now
      (evs ++ (_log_operation env log_message true).1,
       .ok (success_result records_to_insert records_to_archive))

/-- STEP 3 (delete old records) of `insert_records`. -/
def step3_delete (env : Env) (records : List Record) (records_to_archive : Nat)
    (evs : List Event) : List Event × Outcome :=
  if records_to_archive > 0 then
    let evs := evs ++ [Event.deleteCall updated_table (DFilter.inList "data_type" data_types)]
    match env.deleteResp with
    | .error e => handle_error env evs e
    | .ok _ => step4_insert env records records_to_archive evs
  else
    step4_insert env records records_to_archive evs

/-- STEP 2 (archive to historical) of `insert_records`. -/
def step2_archive (env : Env) (records existing_records : List Record)
    (evs : List Event) : List Event × Outcome :=
  let records_to_archive := existing_records.length
  if records_to_archive > 0 then
    let records_for_history := existing_records.map strip_id
    let evs := evs ++ [Event.insertCall historical_table records_for_history]
    match env.archiveResp with
    | .error e => handle_error env evs e
    | .ok _ => step3_delete env records records_to_archive evs
  else
    step3_delete env records records_to_archive evs

/-- `insert_records` of `New_Jersey_DOBI/database.py`. -/
def insert_records (env : Env) (records : List Record) : List Event × Outcome :=
  if records.isEmpty then
    ([], .ok no_records_result)
  else
    let evs := [Event.selectCall updated_table (DFilter.inList "data_type" data_types)]
    match env.selectResp with
    | .error e => handle_error env evs e
    | .ok existing_records => step2_archive env records existing_records evs

end SupabaseHandler

namespace SupabaseHandlerPhysician

def updated_table : String := "updated_medical_benchmarking_data"
def historical_table : String := "historical_medical_benchmarking_data"
def logging_table : String := "logging_table"
def script_name : String := "Fairhealth Physician"
def data_types : List String := ["Physician USA", "Physician 070"]

/-- `_create_log_message` of `Fair_Health_Physicians/database.py`. -/
def _create_log_message (archived_count inserted_count : Nat) (timestamp : String) : String :=
  if archived_count > 0 then
    script_name ++ ": Archived " ++ fmtComma archived_count ++ " old records and inserted " ++
      fmtComma inserted_count ++ " new records (" ++ timestamp ++ ")"
  else
    script_name ++ ": Inserted " ++ fmtComma inserted_count ++ " new records (" ++
      timestamp ++ ")"

/-- `_log_operation` of `Fair_Health_Physicians/database.py`. -/
def _log_operation (env : Env) (message : String) (success : Bool) :
    List Event × List String :=
  match env.logResp with
  | .ok _ =>
      ([Event.logCall logging_table ⟨script_name, message⟩],
       [(if success then "✅" else "❌") ++ " Logged to DB: " ++ message])
  | .error e =>
      ([Event.logCall logging_table ⟨script_name, message⟩],
       ["⚠️ Failed to write to logging_table: " ++ e.str])

/-- The single `except Exception` clause of `insert_records`: build
`error_msg = "Failed to process <script>: <str(e)>"`, log
`"FAILED: <error_msg>"` best-effort, then re-raise the original exception. -/
def handle_error (env : Env) (evs : List Event) (e : PyExc) : List Event × Outcome :=
  let error_msg := "Failed to process " ++ script_name ++ ": " ++ e.str
  (evs ++ (_log_operation env ("FAILED: " ++ error_msg) false).1, .raised e)

/-- The success return dict of `insert_records` (note: a `success` flag, no
`status` key). -/
def success_result (inserted_count records_to_archive : Nat) : ResultDict :=
  [("records_inserted", RVal.n inserted_count),
   ("records_archived", RVal.n records_to_archive),
   ("table", RVal.s updated_table),
   ("success", RVal.b true)]

/-- The early-return dict of `insert_records` for an empty input list. -/
def no_records_result : ResultDict :=
  [("records_inserted", RVal.n 0),
   ("records_archived", RVal.n 0),
   ("table", RVal.s updated_table),
   ("status", RVal.s "no_records")]

/-- STEP 4 (insert new records) and STEP 5 (log) of `insert_records`. -/
def step4_insert (env : Env) (records : List Record) (records_to_archive : Nat)
    (evs : List Event) : List Event × Outcome :=
  let evs := evs ++ [Event.insertCall updated_table records]
  match env.insertResp with
  | .error e => handle_error env evs e
  | .ok data =>
      let inserted_count :=
        match data with
        | some l => if l.isEmpty then 0 else l.length
        | none => 0
      let log_message := _create_log_message records_to_archive inserted_count env.now
      (evs ++ (_log_operation env log_message true).1,
       .ok (success_result inserted_count records_to_archive))

/-- STEP 3 (delete old records) of `insert_records`. -/
def step3_delete (env : Env) (records : List Record) (records_to_archive : Nat)
    (evs : List Event) : List Event × Outcome :=
  if records_to_archive > 0 then
    let evs := evs ++ [Event.deleteCall updated_table (DFilter.inList "data_type" data_types)]
    match env.deleteResp with
    | .error e => handle_error env evs e
    | .ok _ => step4_insert env records records_to_archive evs
  else
    step4_insert env records records_to_archive evs

/-- STEP 2 (archive to historical) of `insert_records`. -/
def step2_archive (env : Env) (records existing_records : List Record)
    (evs : List Event) : List Event × Outcome :=
  let records_to_archive := existing_records.length
  if records_to_archive > 0 then
    let records_for_history := existing_records.map strip_id
    let evs := evs ++ [Event.insertCall historical_table records_for_history]
    match env.archiveResp with
    | .error e => handle_error env evs e
    | .ok _ => step3_delete env records records_to_archive evs
  else
    step3_delete env records records_to_archive evs

/-- `insert_records` of `Fair_Health_Physicians/database.py`. -/
def insert_records (env : Env) (records : List Record) : List Event × Outcome :=
  if records.isEmpty then
    ([], .ok no_records_result)
  else
    let evs := [Event.selectCall updated_table (DFilter.inList "data_type" data_types)]
    match env.selectResp with
    | .error e => handle_error env evs e
    | .ok existing_records => step2_archive env records existing_records evs

end SupabaseHandlerPhysician

namespace DataProcessorASC

/-- A pandas cell: a string, an (integer-modelled) number, a missing value
(`NaN`/`NaT`), or the Python object `None`. -/
inductive Cell
  | str (s : String)
  | num (q : Int)
  | nan
  | null
  deriving Repr, DecidableEq

/-- `pd.isnull` on a cell: both `NaN` and `None` count as null. -/
def Cell.isNull : Cell → Bool
  | .nan => true
  | .null => true
  | _ => false

/-- A pandas DataFrame: named columns and positional rows. -/
structure DataFrame where
  columns : List String
  rows : List (List Cell)
  deriving Repr, DecidableEq

def SOURCE_HCPCS_COL : String := "HCPCS Code"
def SOURCE_DESC_COL : String := "Short Descriptor"
def SOURCE_RATE_MARKER : String := "Payment Rate"

/-- Does the first list occur at the head of the second? -/
def startsWithChars : List Char → List Char → Bool
  | [], _ => true
  | _ :: _, [] => false
  | p :: ps, c :: cs => p == c && startsWithChars ps cs

/-- Does the first list occur anywhere inside the second? -/
def containsChars (pat : List Char) : List Char → Bool
  | [] => startsWithChars pat []
  | c :: cs => startsWithChars pat (c :: cs) || containsChars pat cs

/-- Python `str.lower()` over the characters. -/
def lowerChars (l : List Char) : List Char :=
  l.map Char.toLower

/-- Python `str.lower()`. -/
def pyLower (s : String) : String :=
  String.mk (lowerChars s.data)

/-- Python's substring test `pat in s`. -/
def containsSub (pat s : String) : Bool :=
  containsChars pat.data s.data

/-- Python `str.strip()` over the characters: drop whitespace at both ends. -/
def trimChars (l : List Char) : List Char :=
  ((l.dropWhile Char.isWhitespace).reverse.dropWhile Char.isWhitespace).reverse

/-- Python `str.strip()`. -/
def pyStrip (s : String) : String :=
  String.mk (trimChars s.data)

/-- Helper for `replaceChars`: the fuel bounds the number of characters still
to be scanned, so the recursion is structural. -/
def replaceCharsAux (pat rep : List Char) : Nat → List Char → List Char
  | _, [] => []
  | 0, l => l
  | fuel + 1, c :: cs =>
      if pat.length > 0 && startsWithChars pat (c :: cs) then
        rep ++ replaceCharsAux pat rep fuel (cs.drop (pat.length - 1))
      else
        c :: replaceCharsAux pat rep fuel cs

/-- Python `str.replace(pat, rep)` over the characters (all non-overlapping
occurrences, left to right). -/
def replaceChars (pat rep l : List Char) : List Char :=
  replaceCharsAux pat rep l.length l

/-- Python `str.replace(pat, rep)`. -/
def pyReplace (s pat rep : String) : String :=
  String.mk (replaceChars pat.data rep.data s.data)

/-- `next((col for col in available_columns if marker.lower() in col.lower()), None)`:
the index of the first column whose lowercased name contains the lowercased
marker (pandas column selection by that name picks the same column). -/
def findCol (marker : String) (cols : List String) : Option Nat :=
  cols.findIdx? (fun col => containsChars (lowerChars marker.data) (lowerChars col.data))

/-- Python `str.title()` over the characters: an alphabetic character is
uppercased when the previous character was not alphabetic, lowercased
otherwise. The accumulator is "previous character was alphabetic". -/
def titleChars : Bool → List Char → List Char
  | _, [] => []
  | prevAlpha, c :: rest =>
      (if c.isAlpha then (if prevAlpha then c.toLower else c.toUpper) else c) ::
        titleChars c.isAlpha rest

/-- Python `str.title()` (ASCII-cased model). -/
def pyTitle (s : String) : String :=
  String.mk (titleChars false s.data)

/-- `rate_col_full_name.lower().replace("payment rate", "").strip().title()`:
the `rel_date` text extracted from the payment-rate column header. -/
def extractRelDate (rate_col_full_name : String) : String :=
  pyTitle (pyStrip (pyReplace (pyLower rate_col_full_name) (pyLower SOURCE_RATE_MARKER) ""))

/-- `astype(str)` on one cell (Python `str(...)` of the value). -/
def cellToStr : Cell → String
  | .str s => s
  | .num q => toString q
  | .nan => "nan"
  | .null => "None"

/-- Decimal value of a digit list. -/
def digitsVal (l : List Char) : Nat :=
  l.foldl (fun n c => n * 10 + (c.toNat - Char.toNat '0')) 0

/-- The numeric parse underlying `pd.to_numeric` on text (numbers are
modelled as integers). -/
def parseNumber (s : String) : Option Int :=
  match trimChars s.data with
  | [] => none
  | '-' :: rest =>
      if !rest.isEmpty && rest.all Char.isDigit then some (-(digitsVal rest : Int)) else none
  | l => if l.all Char.isDigit then some ((digitsVal l : Int)) else none

/-- `pd.to_numeric(x, errors='coerce')` on one cell: numbers stay, parsable
text becomes a number, everything else (including `None`) becomes `NaN`. -/
def toNumericCoerce : Cell → Cell
  | .num q => .num q
  | .str s =>
      match parseNumber s with
      | some q => .num q
      | none => .nan
  | .nan => .nan
  | .null => .nan

/-- `.astype(object).where(pd.notnull(...), None)` on one cell: null values
become the object `None`, everything else is unchanged. -/
def nanToNone : Cell → Cell
  | .nan => .null
  | .null => .null
  | c => c

/-- Apply `f` to the cell at position `i` of a row. -/
def setAt : Nat → (Cell → Cell) → List Cell → List Cell
  | _, _, [] => []
  | 0, f, c :: r => f c :: r
  | n + 1, f, c :: r => c :: setAt n f r

/-- `clean_data` of `Medicare_ASC_Addenda/data_processor.py`: map the source
columns to `code`/`code_description`/`80th`, extract `rel_date` from the
payment-rate header, add the constant `data_type`, drop rows with a null or
(after `str(...).strip()`) empty code, coerce `80th` to numeric, replace every
remaining `NaN` by `None`, and drop all-null rows. Raises `ValueError` when a
required column is missing. -/
def clean_data (df : DataFrame) : Except String DataFrame :=
  match findCol SOURCE_HCPCS_COL df.columns, findCol SOURCE_DESC_COL df.columns,
        findCol SOURCE_RATE_MARKER df.columns with
  | some hcpcs_idx, some desc_idx, some rate_idx =>
      let rate_col_full_name := df.columns.getD rate_idx ""
      let rel_date_value := extractRelDate rate_col_full_name
      let df_cleaned := df.rows.map (fun row =>
        [row.getD hcpcs_idx Cell.nan, row.getD desc_idx Cell.nan, row.getD rate_idx Cell.nan] ++
          [Cell.str "Medicare Facility", Cell.str rel_date_value])
      let dropped := df_cleaned.filter (fun row => !(row.getD 0 Cell.nan).isNull)
      let nonEmpty := dropped.filter (fun row =>
        (pyStrip (cellToStr (row.getD 0 Cell.nan))).length > 0)
      let numeric := nonEmpty.map (setAt 2 toNumericCoerce)
      let noNan := numeric.map (fun row => row.map nanToNone)
      let final := noNan.filter (fun row => !(row.all Cell.isNull))
      Except.ok
        { columns := ["code", "code_description", "80th", "data_type", "rel_date"],
          rows := final }
  | _, _, _ => Except.error "Missing required columns"

end DataProcessorASC

/-! ### Claim statements and concrete sample inputs -/

/-- A sample live-store row (with a store-assigned `id`). -/
def sampleRecord : Record :=
  [("id", Value.i 7), ("data_type", Value.s "Facility USA"), ("code", Value.s "0001A")]

/-- A sample non-empty batch of new records. -/
def sampleNew : List Record :=
  [[("data_type", Value.s "Facility USA"), ("code", Value.s "0002A")]]

/-- An environment in which every store call succeeds: the select finds one
existing row and the live insert reports one persisted row. -/
def envOk : Env :=
  ⟨.ok [sampleRecord], .ok (), .ok (), .ok (some sampleNew), .ok (), "July 1"⟩

/-- C1: in the Fair Health Facility and Medicare Clinical Fees pipelines, a
delete is only ever issued after the archive insert into the historical table
has succeeded, the delete carries the same `data_type` filter as the initial
select, and an archive failure aborts the run with no delete issued. -/
def C1_prop (env : Env) (records : List Record) : Prop :=
  let fh := SupabaseHandlerFairHealth.insert_records env records
  let cl := SupabaseHandlerCLFS.insert_records env records
  (archive_before_delete false fh.1 = true
   ∧ (∀ t f, Event.deleteCall t f ∈ fh.1 →
        t = SupabaseHandlerFairHealth.updated_table
        ∧ f = DFilter.inList "data_type" SupabaseHandlerFairHealth.data_types
        ∧ Event.selectCall SupabaseHandlerFairHealth.updated_table f ∈ fh.1)
   ∧ (∀ e, env.archiveResp = .error e → ∀ ev ∈ fh.1, isDeleteEvent ev = false)
   ∧ (∀ e existing, env.archiveResp = .error e → env.selectResp = .ok existing →
        existing ≠ [] → fh.2 = .raised e))
  ∧ (archive_before_delete false cl.1 = true
   ∧ (∀ t f, Event.deleteCall t f ∈ cl.1 →
        t = SupabaseHandlerCLFS.updated_table
        ∧ f = DFilter.eqVal "data_type" SupabaseHandlerCLFS.data_type
        ∧ Event.selectCall SupabaseHandlerCLFS.updated_table f ∈ cl.1)
   ∧ (∀ e, env.archiveResp = .error e → ∀ ev ∈ cl.1, isDeleteEvent ev = false)
   ∧ (∀ e existing, env.archiveResp = .error e → env.selectResp = .ok existing →
        existing ≠ [] →
        cl.2 = .raised (.generic ("Failed to process " ++
          SupabaseHandlerCLFS.script_name ++ ": " ++ e.str))))

/-- The environment of the C2 counterexample: no existing rows, and the live
insert's response reports only ONE persisted record. -/
def C2_env : Env :=
  ⟨.ok [], .ok (), .ok (), .ok (some [[("code", Value.s "A")]]), .ok (), "t"⟩

/-- The C2 counterexample batch: TWO requested records. -/
def C2_records : List Record :=
  [[("code", Value.s "A")], [("code", Value.s "B")]]

/-- C2 as amended: in the Facility and Physician pipelines `records_inserted`
is the length of the insert response's `data` (0 when the store reports none);
in the CLFS and DOBI pipelines it is always `len(records)`, whatever the
store's insert response reports. -/
def C2_prop (env : Env) (records : List Record) : Prop :=
  (∀ r data, records ≠ [] → env.insertResp = .ok data →
     (SupabaseHandlerFairHealth.insert_records env records).2 = .ok r →
     r.lookup "records_inserted" =
       some (RVal.n (match data with | some l => l.length | none => 0)))
  ∧ (∀ r data, records ≠ [] → env.insertResp = .ok data →
     (SupabaseHandlerPhysician.insert_records env records).2 = .ok r →
     r.lookup "records_inserted" =
       some (RVal.n (match data with | some l => l.length | none => 0)))
  ∧ (∀ r, records ≠ [] →
     (SupabaseHandlerCLFS.insert_records env records).2 = .ok r →
     r.lookup "records_inserted" = some (RVal.n records.length))
  ∧ (∀ r, records ≠ [] →
     (SupabaseHandler.insert_records env records).2 = .ok r →
     r.lookup "records_inserted" = some (RVal.n records.length))

/-- C3: with an empty input list every handler returns its `no_records` dict
immediately (status `no_records`, zero counts, the live table name) and issues
no store call whatsoever. -/
def C3_prop (env : Env) : Prop :=
  (SupabaseHandlerFairHealth.insert_records env [] =
     ([], .ok SupabaseHandlerFairHealth.no_records_result)
   ∧ SupabaseHandlerFairHealth.no_records_result.lookup "status" = some (RVal.s "no_records")
   ∧ SupabaseHandlerFairHealth.no_records_result.lookup "records_inserted" = some (RVal.n 0)
   ∧ SupabaseHandlerFairHealth.no_records_result.lookup "records_archived" = some (RVal.n 0)
   ∧ SupabaseHandlerFairHealth.no_records_result.lookup "table" =
       some (RVal.s SupabaseHandlerFairHealth.updated_table))
  ∧ (SupabaseHandlerCLFS.insert_records env [] =
     ([], .ok SupabaseHandlerCLFS.no_records_result)
   ∧ SupabaseHandlerCLFS.no_records_result.lookup "status" = some (RVal.s "no_records")
   ∧ SupabaseHandlerCLFS.no_records_result.lookup "records_inserted" = some (RVal.n 0)
   ∧ SupabaseHandlerCLFS.no_records_result.lookup "records_archived" = some (RVal.n 0))
  ∧ (SupabaseHandler.insert_records env [] =
     ([], .ok SupabaseHandler.no_records_result)
   ∧ SupabaseHandler.no_records_result.lookup "status" = some (RVal.s "no_records")
   ∧ SupabaseHandler.no_records_result.lookup "records_inserted" = some (RVal.n 0)
   ∧ SupabaseHandler.no_records_result.lookup "records_archived" = some (RVal.n 0))
  ∧ (SupabaseHandlerPhysician.insert_records env [] =
     ([], .ok SupabaseHandlerPhysician.no_records_result)
   ∧ SupabaseHandlerPhysician.no_records_result.lookup "status" = some (RVal.s "no_records")
   ∧ SupabaseHandlerPhysician.no_records_result.lookup "records_inserted" = some (RVal.n 0)
   ∧ SupabaseHandlerPhysician.no_records_result.lookup "records_archived" = some (RVal.n 0))

/-- C4 as amended: Facility, CLFS and DOBI results always carry
`status ∈ {success, no_records}` plus `records_inserted`, `records_archived`
and the live table name; the Physician `no_records` result does too, but the
Physician success result carries `success = true` INSTEAD of a `status` key. -/
def C4_prop (env : Env) (records : List Record) : Prop :=
  (∀ r, (SupabaseHandlerFairHealth.insert_records env records).2 = .ok r →
     (r.lookup "status" = some (RVal.s "success")
        ∨ r.lookup "status" = some (RVal.s "no_records"))
     ∧ (r.lookup "records_inserted").isSome
     ∧ (r.lookup "records_archived").isSome
     ∧ r.lookup "table" = some (RVal.s SupabaseHandlerFairHealth.updated_table))
  ∧ (∀ r, (SupabaseHandlerCLFS.insert_records env records).2 = .ok r →
     (r.lookup "status" = some (RVal.s "success")
        ∨ r.lookup "status" = some (RVal.s "no_records"))
     ∧ (r.lookup "records_inserted").isSome
     ∧ (r.lookup "records_archived").isSome
     ∧ r.lookup "table" = some (RVal.s SupabaseHandlerCLFS.updated_table))
  ∧ (∀ r, (SupabaseHandler.insert_records env records).2 = .ok r →
     (r.lookup "status" = some (RVal.s "success")
        ∨ r.lookup "status" = some (RVal.s "no_records"))
     ∧ (r.lookup "records_inserted").isSome
     ∧ (r.lookup "records_archived").isSome
     ∧ r.lookup "table" = some (RVal.s SupabaseHandler.updated_table))
  ∧ (∀ r, (SupabaseHandlerPhysician.insert_records env records).2 = .ok r →
     ((r.lookup "status" = some (RVal.s "no_records") ∧ r.lookup "success" = none)
        ∨ (r.lookup "status" = none ∧ r.lookup "success" = some (RVal.b true)))
     ∧ (r.lookup "records_inserted").isSome
     ∧ (r.lookup "records_archived").isSome
     ∧ r.lookup "table" = some (RVal.s SupabaseHandlerPhysician.updated_table))

/-- C5: the record sent to the historical store is the selected record with
exactly the `id` key removed; records without an `id` key are archived
unchanged; no archived record carries an `id` key; and the Facility and DOBI
archive inserts send exactly `existing.map strip_id`. -/
def C5_prop (env : Env) (records : List Record) : Prop :=
  (∀ (r : Record) (kv : String × Value), kv ∈ strip_id r ↔ kv ∈ r ∧ kv.1 ≠ "id")
  ∧ (∀ r : Record, "id" ∉ (strip_id r).map Prod.fst)
  ∧ (∀ r : Record, "id" ∉ r.map Prod.fst → strip_id r = r)
  ∧ (∀ existing, records ≠ [] → env.selectResp = .ok existing → existing ≠ [] →
      Event.insertCall SupabaseHandlerFairHealth.historical_table (existing.map strip_id)
        ∈ (SupabaseHandlerFairHealth.insert_records env records).1)
  ∧ (∀ existing, records ≠ [] → env.selectResp = .ok existing → existing ≠ [] →
      Event.insertCall SupabaseHandler.historical_table (existing.map strip_id)
        ∈ (SupabaseHandler.insert_records env records).1)

/-- The environment of the C6 counterexample: the initial select raises a
plain exception. -/
def C6_env : Env :=
  ⟨.error (.generic "boom"), .ok (), .ok (), .ok none, .ok (), "t"⟩

/-- C6 as amended: whenever a run of a handler ends by raising, a failure
entry was written to the logging table; its message begins with `"Failed"` in
the Facility, CLFS and DOBI pipelines but with `"FAILED"` in the Physician
pipeline; and a failing select or insert is never swallowed. -/
def C6_prop (env : Env) (records : List Record) : Prop :=
  let fh := SupabaseHandlerFairHealth.insert_records env records
  let cl := SupabaseHandlerCLFS.insert_records env records
  let nj := SupabaseHandler.insert_records env records
  let ph := SupabaseHandlerPhysician.insert_records env records
  (∀ e, fh.2 = .raised e → ∃ msg,
      Event.logCall SupabaseHandlerFairHealth.logging_table
        ⟨SupabaseHandlerFairHealth.script_name, msg⟩ ∈ fh.1
      ∧ msg.data.take 6 = "Failed".data)
  ∧ (∀ e, cl.2 = .raised e → ∃ msg,
      Event.logCall SupabaseHandlerCLFS.logging_table
        ⟨SupabaseHandlerCLFS.script_name, msg⟩ ∈ cl.1
      ∧ msg.data.take 6 = "Failed".data)
  ∧ (∀ e, nj.2 = .raised e → ∃ msg,
      Event.logCall SupabaseHandler.logging_table
        ⟨SupabaseHandler.script_name, msg⟩ ∈ nj.1
      ∧ msg.data.take 6 = "Failed".data)
  ∧ (∀ e, ph.2 = .raised e → ∃ msg,
      Event.logCall SupabaseHandlerPhysician.logging_table
        ⟨SupabaseHandlerPhysician.script_name, msg⟩ ∈ ph.1
      ∧ msg.data.take 6 = "FAILED".data)
  ∧ (∀ e, env.selectResp = .error e → records ≠ [] →
      (∃ e2, fh.2 = .raised e2) ∧ (∃ e2, cl.2 = .raised e2)
      ∧ (∃ e2, nj.2 = .raised e2) ∧ (∃ e2, ph.2 = .raised e2))
  ∧ (∀ e, env.insertResp = .error e → records ≠ [] →
      (∃ e2, fh.2 = .raised e2) ∧ (∃ e2, cl.2 = .raised e2)
      ∧ (∃ e2, nj.2 = .raised e2) ∧ (∃ e2, ph.2 = .raised e2))

/-- An environment identical to `envOk` except that the logging-table insert
fails. -/
def C7_env2 : Env :=
  ⟨.ok [sampleRecord], .ok (), .ok (), .ok (some sampleNew), .error (.generic "logdown"), "July 1"⟩

/-- C7: a log-sink failure is caught inside `_log_operation` and reported on
the console only; the outcome of `insert_records` never depends on the
log-sink response, in any of the four pipelines. -/
def C7_prop (env env2 : Env) (records : List Record) : Prop :=
  (env.selectResp = env2.selectResp → env.archiveResp = env2.archiveResp →
   env.deleteResp = env2.deleteResp → env.insertResp = env2.insertResp →
   env.now = env2.now →
   ((SupabaseHandlerFairHealth.insert_records env records).2 =
      (SupabaseHandlerFairHealth.insert_records env2 records).2
    ∧ (SupabaseHandlerCLFS.insert_records env records).2 =
      (SupabaseHandlerCLFS.insert_records env2 records).2
    ∧ (SupabaseHandler.insert_records env records).2 =
      (SupabaseHandler.insert_records env2 records).2
    ∧ (SupabaseHandlerPhysician.insert_records env records).2 =
      (SupabaseHandlerPhysician.insert_records env2 records).2))
  ∧ (∀ e m b, env.logResp = .error e →
      (SupabaseHandlerFairHealth._log_operation env m b).2 =
        ["⚠️ Failed to write to logging_table: " ++ e.str]
      ∧ (SupabaseHandlerPhysician._log_operation env m b).2 =
        ["⚠️ Failed to write to logging_table: " ++ e.str]
      ∧ (SupabaseHandlerCLFS._log_operation env m b).2 =
        ["⚠️ Failed to write log entry: " ++ e.str]
      ∧ (SupabaseHandler._log_operation env m b).2 =
        ["⚠️ Failed to write log entry: " ++ e.str])

/-- C8: when a CLFS run raises, the raised exception is a NEW plain exception
whose message is `"Failed to process Medicare Clinical Fees: <original
message>"` (never the original `APIError`); same for a DOBI run failing with a
non-API error, while a DOBI `APIError` is re-raised as-is. -/
def C8_prop (env : Env) (records : List Record) : Prop :=
  (∀ e2, (SupabaseHandlerCLFS.insert_records env records).2 = .raised e2 →
     ∃ m, e2 = .generic ("Failed to process " ++ SupabaseHandlerCLFS.script_name ++ ": " ++ m))
  ∧ (∀ e, env.selectResp = .error e → records ≠ [] →
      (SupabaseHandlerCLFS.insert_records env records).2 =
        .raised (.generic ("Failed to process " ++
          SupabaseHandlerCLFS.script_name ++ ": " ++ e.str))
      ∧ (∀ e2, (SupabaseHandlerCLFS.insert_records env records).2 = .raised e2 → e2 ≠ e))
  ∧ (∀ e2, (SupabaseHandler.insert_records env records).2 = .raised e2 →
      (∃ m d, e2 = .apiError m d)
      ∨ ∃ m, e2 = .generic ("Failed to process " ++ SupabaseHandler.script_name ++ ": " ++ m))
  ∧ (∀ m, env.selectResp = .error (.generic m) → records ≠ [] →
      (SupabaseHandler.insert_records env records).2 =
        .raised (.generic ("Failed to process " ++ SupabaseHandler.script_name ++ ": " ++ m))
      ∧ (∀ e2, (SupabaseHandler.insert_records env records).2 = .raised e2 →
          e2 ≠ .generic m))
  ∧ (∀ m d, env.selectResp = .error (.apiError m d) → records ≠ [] →
      (SupabaseHandler.insert_records env records).2 = .raised (.apiError m d))

/-- C9: CLFS and DOBI results always carry a `records_deleted` key; it is 0 in
the `no_records` result and equals `records_archived` (the step-1 count) on
success, the delete response itself never being consulted. -/
def C9_prop (env : Env) (records : List Record) : Prop :=
  ((SupabaseHandlerCLFS.insert_records env []).2 = .ok SupabaseHandlerCLFS.no_records_result
   ∧ SupabaseHandlerCLFS.no_records_result.lookup "records_deleted" = some (RVal.n 0))
  ∧ ((SupabaseHandler.insert_records env []).2 = .ok SupabaseHandler.no_records_result
   ∧ SupabaseHandler.no_records_result.lookup "records_deleted" = some (RVal.n 0))
  ∧ (∀ r, (SupabaseHandlerCLFS.insert_records env records).2 = .ok r →
      (r.lookup "records_deleted").isSome
      ∧ r.lookup "records_deleted" = r.lookup "records_archived")
  ∧ (∀ r, (SupabaseHandler.insert_records env records).2 = .ok r →
      (r.lookup "records_deleted").isSome
      ∧ r.lookup "records_deleted" = r.lookup "records_archived")
  ∧ (∀ existing r, env.selectResp = .ok existing → records ≠ [] →
      (SupabaseHandlerCLFS.insert_records env records).2 = .ok r →
      r.lookup "records_deleted" = some (RVal.n existing.length))
  ∧ (∀ existing r, env.selectResp = .ok existing → records ≠ [] →
      (SupabaseHandler.insert_records env records).2 = .ok r →
      r.lookup "records_deleted" = some (RVal.n existing.length))

/-- C10: every row of a DataFrame returned by `clean_data` has `data_type`
equal to `"Medicare Facility"`, a non-null code that is non-empty after
`str(...).strip()`, `rel_date` equal to the text extracted from the
payment-rate column header, and an `80th` value that is a number or `None`,
never `NaN`. -/
def C10_prop (df out : DataProcessorASC.DataFrame) : Prop :=
  ∀ row ∈ out.rows,
    row.getD 3 DataProcessorASC.Cell.nan = DataProcessorASC.Cell.str "Medicare Facility"
    ∧ (row.getD 0 DataProcessorASC.Cell.nan).isNull = false
    ∧ 0 < (DataProcessorASC.pyStrip
            (DataProcessorASC.cellToStr (row.getD 0 DataProcessorASC.Cell.nan))).length
    ∧ (∃ rate_idx,
        DataProcessorASC.findCol DataProcessorASC.SOURCE_RATE_MARKER df.columns = some rate_idx
        ∧ row.getD 4 DataProcessorASC.Cell.nan =
            DataProcessorASC.Cell.str
              (DataProcessorASC.extractRelDate (df.columns.getD rate_idx "")))
    ∧ ((∃ q, row.getD 2 DataProcessorASC.Cell.nan = DataProcessorASC.Cell.num q)
        ∨ row.getD 2 DataProcessorASC.Cell.nan = DataProcessorASC.Cell.null)

/-- The C10 witness input: a raw sheet with one good row, one
whitespace-only code and one missing code. -/
def sampleDF : DataProcessorASC.DataFrame :=
  { columns := ["HCPCS Code", "Short Descriptor", "July 2025 Payment Rate"],
    rows := [[DataProcessorASC.Cell.str "0001A", DataProcessorASC.Cell.str "desc",
                DataProcessorASC.Cell.str "12"],
             [DataProcessorASC.Cell.str " ", DataProcessorASC.Cell.str "x",
                DataProcessorASC.Cell.str "na"],
             [DataProcessorASC.Cell.nan, DataProcessorASC.Cell.str "y",
                DataProcessorASC.Cell.num 3]] }

/-- The cleaned output `clean_data` produces on `sampleDF`. -/
def sampleDFOut : DataProcessorASC.DataFrame :=
  { columns := ["code", "code_description", "80th", "data_type", "rel_date"],
    rows := [[DataProcessorASC.Cell.str "0001A", DataProcessorASC.Cell.str "desc",
                DataProcessorASC.Cell.num 12, DataProcessorASC.Cell.str "Medicare Facility",
                DataProcessorASC.Cell.str "July 2025"]] }

/-! ### Helper lemmas -/

attribute [simp] SupabaseHandlerFairHealth.updated_table
  SupabaseHandlerFairHealth.historical_table SupabaseHandlerFairHealth.logging_table
  SupabaseHandlerFairHealth.script_name SupabaseHandlerFairHealth.data_types
  SupabaseHandlerFairHealth.step4_insert SupabaseHandlerFairHealth.step3_delete
  SupabaseHandlerFairHealth.step2_archive SupabaseHandlerFairHealth.insert_records
  SupabaseHandlerFairHealth.success_result SupabaseHandlerFairHealth.no_records_result
  SupabaseHandlerCLFS.updated_table SupabaseHandlerCLFS.historical_table
  SupabaseHandlerCLFS.logging_table SupabaseHandlerCLFS.script_name
  SupabaseHandlerCLFS.data_type
  SupabaseHandlerCLFS.step4_insert SupabaseHandlerCLFS.step3_delete
  SupabaseHandlerCLFS.step2_archive SupabaseHandlerCLFS.insert_records
  SupabaseHandlerCLFS.success_result SupabaseHandlerCLFS.no_records_result
  SupabaseHandler.updated_table SupabaseHandler.historical_table
  SupabaseHandler.logging_table SupabaseHandler.script_name SupabaseHandler.data_types
  SupabaseHandler.step4_insert SupabaseHandler.step3_delete
  SupabaseHandler.step2_archive SupabaseHandler.insert_records
  SupabaseHandler.success_result SupabaseHandler.no_records_result
  SupabaseHandlerPhysician.updated_table SupabaseHandlerPhysician.historical_table
  SupabaseHandlerPhysician.logging_table SupabaseHandlerPhysician.script_name
  SupabaseHandlerPhysician.data_types
  SupabaseHandlerPhysician.step4_insert SupabaseHandlerPhysician.step3_delete
  SupabaseHandlerPhysician.step2_archive SupabaseHandlerPhysician.insert_records
  SupabaseHandlerPhysician.success_result SupabaseHandlerPhysician.no_records_result
  archive_before_delete isDeleteEvent isArchiveEvent

@[simp] theorem fh_log_trace (env : Env) (m : String) (b : Bool) :
    (SupabaseHandlerFairHealth._log_operation env m b).1 =
      [Event.logCall SupabaseHandlerFairHealth.logging_table
        ⟨SupabaseHandlerFairHealth.script_name, m⟩] := by
  unfold SupabaseHandlerFairHealth._log_operation
  cases env.logResp <;> rfl

@[simp] theorem clfs_log_trace (env : Env) (m : String) (b : Bool) :
    (SupabaseHandlerCLFS._log_operation env m b).1 =
      [Event.logCall SupabaseHandlerCLFS.logging_table
        ⟨SupabaseHandlerCLFS.script_name, m⟩] := by
  unfold SupabaseHandlerCLFS._log_operation
  cases env.logResp <;> rfl

@[simp] theorem nj_log_trace (env : Env) (m : String) (b : Bool) :
    (SupabaseHandler._log_operation env m b).1 =
      [Event.logCall SupabaseHandler.logging_table
        ⟨SupabaseHandler.script_name, m⟩] := by
  unfold SupabaseHandler._log_operation
  cases env.logResp <;> rfl

@[simp] theorem ph_log_trace (env : Env) (m : String) (b : Bool) :
    (SupabaseHandlerPhysician._log_operation env m b).1 =
      [Event.logCall SupabaseHandlerPhysician.logging_table
        ⟨SupabaseHandlerPhysician.script_name, m⟩] := by
  unfold SupabaseHandlerPhysician._log_operation
  cases env.logResp <;> rfl

@[simp] theorem fh_handle_error (env : Env) (evs : List Event) (e : PyExc) :
    SupabaseHandlerFairHealth.handle_error env evs e =
      (evs ++ [Event.logCall SupabaseHandlerFairHealth.logging_table
        ⟨SupabaseHandlerFairHealth.script_name,
         "Failed: " ++ SupabaseHandlerFairHealth.error_text e⟩], .raised e) := by
  simp [SupabaseHandlerFairHealth.handle_error]

@[simp] theorem clfs_handle_error (env : Env) (evs : List Event) (e : PyExc) :
    SupabaseHandlerCLFS.handle_error env evs e =
      (evs ++ [Event.logCall SupabaseHandlerCLFS.logging_table
        ⟨SupabaseHandlerCLFS.script_name,
         "Failed to process " ++ SupabaseHandlerCLFS.script_name ++ ": " ++ e.str⟩],
       .raised (.generic ("Failed to process " ++
         SupabaseHandlerCLFS.script_name ++ ": " ++ e.str))) := by
  simp [SupabaseHandlerCLFS.handle_error]

@[simp] theorem nj_handle_error (env : Env) (evs : List Event) (e : PyExc) :
    SupabaseHandler.handle_error env evs e =
      (evs ++ [Event.logCall SupabaseHandler.logging_table
        ⟨SupabaseHandler.script_name, SupabaseHandler.error_message e⟩],
       .raised (SupabaseHandler.raised_exc e)) := by
  simp [SupabaseHandler.handle_error]

@[simp] theorem nj_error_message_api (m d : String) :
    SupabaseHandler.error_message (.apiError m d) =
      "Failed to process " ++ SupabaseHandler.script_name ++ ": API Error - " ++ m := rfl

@[simp] theorem nj_error_message_gen (m : String) :
    SupabaseHandler.error_message (.generic m) =
      "Failed to process " ++ SupabaseHandler.script_name ++ ": " ++ m := rfl

@[simp] theorem nj_raised_exc_api (m d : String) :
    SupabaseHandler.raised_exc (.apiError m d) = .apiError m d := rfl

@[simp] theorem nj_raised_exc_gen (m : String) :
    SupabaseHandler.raised_exc (.generic m) =
      .generic ("Failed to process " ++ SupabaseHandler.script_name ++ ": " ++ m) := rfl

@[simp] theorem lookup_cons {β : Type} (a k : String) (v : β) (t : List (String × β)) :
    List.lookup a ((k, v) :: t) = if k = a then some v else List.lookup a t := by
  by_cases h : k = a
  · subst h
    simp [List.lookup]
  · have hbe : (a == k) = false := beq_eq_false_iff_ne.mpr (fun hh => h hh.symm)
    simp [List.lookup, hbe, h]

@[simp] theorem lookup_nil {β : Type} (a : String) :
    List.lookup a ([] : List (String × β)) = none := rfl

@[simp] theorem ite_eq_nil_length (l : List Record) :
    (if l = [] then 0 else l.length) = l.length := by
  cases l <;> simp

@[simp] theorem ite_isEmpty_length (l : List Record) :
    (if l.isEmpty then 0 else l.length) = l.length := by
  cases l <;> simp

@[simp] theorem ph_handle_error (env : Env) (evs : List Event) (e : PyExc) :
    SupabaseHandlerPhysician.handle_error env evs e =
      (evs ++ [Event.logCall SupabaseHandlerPhysician.logging_table
        ⟨SupabaseHandlerPhysician.script_name,
         "FAILED: " ++ ("Failed to process " ++
           SupabaseHandlerPhysician.script_name ++ ": " ++ e.str)⟩],
       .raised e) := by
  simp [SupabaseHandlerPhysician.handle_error]

theorem take_data_append (p m : String) (n : Nat) (h : n ≤ p.data.length) :
    (p ++ m).data.take n = p.data.take n := by
  rw [String.data_append]
  exact List.take_append_of_le_length h

/-! ### C3 -/

/-- Claim C3: with an empty input list every handler returns immediately
with `status = no_records`, zero counts and the live table name, issuing no
store call whatsoever. -/
theorem C3_empty_short_circuit : ∀ env : Env, C3_prop env := by
  intro env
  exact ⟨⟨rfl, by decide, by decide, by decide, by decide⟩,
         ⟨rfl, by decide, by decide, by decide⟩,
         ⟨rfl, by decide, by decide, by decide⟩,
         ⟨rfl, by decide, by decide, by decide⟩⟩

/-! ### C1 -/

/-- Claim C1: in the Fair Health Facility and CLFS pipelines, for any
non-empty batch, a delete is issued only after the archive insert into the
historical table succeeded, the delete carries the same `data_type` filter as
the initial select, and an archive failure aborts the run with no delete. -/
theorem C1_archive_strictly_before_delete :
    ∀ env records, records ≠ [] → C1_prop env records := by
  intro env records hne
  obtain ⟨s, a, d, i, l, n⟩ := env
  cases records with
  | nil => exact absurd rfl hne
  | cons r0 rs =>
    unfold C1_prop
    rcases s with se | existing
    · simp
    · rcases existing with _ | ⟨x, xs⟩
      · rcases i with ie | idata
        · simp
        · simp
      · rcases a with ae | _
        · simp
        · rcases d with de | _
          · simp
          · rcases i with ie | idata
            · simp
            · simp

/-- Claim C2, amended: in the Fair Health Facility and Physician pipelines
`records_inserted` equals the number of records in the store's insert
response (0 when the store reports none); in the CLFS and New Jersey DOBI
pipelines it is always the length of the input list, regardless of the
store's response. -/
theorem C2_records_inserted : ∀ env records, C2_prop env records := by
  intro env records
  obtain ⟨s, a, d, i, l, n⟩ := env
  unfold C2_prop
  cases records with
  | nil => simp
  | cons r0 rs =>
    rcases s with se | existing
    · simp
    · rcases existing with _ | ⟨x, xs⟩
      · rcases i with ie | idata
        · simp
        · rcases idata with _ | ldata <;> simp
      · rcases a with ae | _
        · simp
        · rcases d with de | _
          · simp
          · rcases i with ie | idata
            · simp
            · rcases idata with _ | ldata <;> simp

/-- Claim C4, amended: every normally-returned result of the Facility, CLFS
and DOBI pipelines carries `status` in `\x7bsuccess, no_records\x7d` together with
`records_inserted`, `records_archived` and the live table name; the Physician
`no_records` result does too, but the Physician success result carries
`success = true` instead of a `status` key. -/
theorem C4_result_fields : ∀ env records, C4_prop env records := by
  intro env records
  obtain ⟨s, a, d, i, l, n⟩ := env
  unfold C4_prop
  cases records with
  | nil =>
    simp
    rintro a b (⟨rfl, -⟩ | ⟨rfl, -⟩ | ⟨rfl, -⟩ | ⟨rfl, -⟩) <;> decide
  | cons r0 rs =>
    rcases s with se | existing
    · simp
    · rcases existing with _ | ⟨x, xs⟩
      · rcases i with ie | idata
        · simp
        · rcases idata with _ | ldata <;> simp <;>
            rintro a b (⟨rfl, -⟩ | ⟨rfl, -⟩ | ⟨rfl, -⟩ | ⟨rfl, -⟩) <;> decide
      · rcases a with ae | _
        · simp
        · rcases d with de | _
          · simp
          · rcases i with ie | idata
            · simp
            · rcases idata with _ | ldata <;> simp <;>
                rintro a b (⟨rfl, -⟩ | ⟨rfl, -⟩ | ⟨rfl, -⟩ | ⟨rfl, -⟩) <;> decide

/-- Claim C4 counterexample: a successful Physician run returns a dict with
no `status` key at all (it carries `success = true` instead). -/
theorem C4_counterexample_physician_success_lacks_status :
    (SupabaseHandlerPhysician.insert_records envOk sampleNew).2 =
      .ok (SupabaseHandlerPhysician.success_result 1 1)
    ∧ (SupabaseHandlerPhysician.success_result 1 1).lookup "status" = none
    ∧ (SupabaseHandlerPhysician.success_result 1 1).lookup "success" = some (RVal.b true) := by
  refine ⟨by decide, by decide, by decide⟩

/-- Claim C5: every record sent to the historical store equals the selected
record with exactly the `id` key removed and all other pairs preserved; a
record without an `id` key is archived unchanged; no archived record carries
an `id` key; and the Facility and DOBI archive inserts send exactly the
stripped copies of the selected rows. -/
theorem C5_historical_records_strip_id : ∀ env records, C5_prop env records := by
  intro env records
  obtain ⟨s, a, d, i, l, n⟩ := env
  unfold C5_prop
  refine ⟨?_, ?_, ?_, ?_, ?_⟩
  · intro r kv
    simp [strip_id, List.mem_filter, bne_iff_ne]
  · intro r hmem
    obtain ⟨kv, hkv, hfst⟩ := List.mem_map.mp hmem
    have h2 : kv ∈ r ∧ ¬kv.1 = "id" := by simpa [strip_id] using hkv
    exact h2.2 hfst
  · intro r h
    unfold strip_id
    rw [List.filter_eq_self]
    intro kv hkv
    rw [bne_iff_ne]
    intro heq
    exact h (List.mem_map.mpr ⟨kv, hkv, heq⟩)
  · intro existing hne hsel hex
    cases records with
    | nil => exact absurd rfl hne
    | cons r0 rs =>
      simp only [Env.selectResp] at hsel
      subst hsel
      cases existing with
      | nil => exact absurd rfl hex
      | cons x xs =>
        rcases a with ae | _
        · simp
        · rcases d with de | _
          · simp
          · rcases i with ie | idata
            · simp
            · simp
  · intro existing hne hsel hex
    cases records with
    | nil => exact absurd rfl hne
    | cons r0 rs =>
      simp only [Env.selectResp] at hsel
      subst hsel
      cases existing with
      | nil => exact absurd rfl hex
      | cons x xs =>
        rcases a with ae | _
        · simp
        · rcases d with de | _
          · simp
          · rcases i with ie | idata
            · simp
            · simp

@[simp] theorem take6_failed_colon (s : String) :
    ("Failed: " ++ s).data.take 6 = "Failed".data := by
  rw [take_data_append _ _ 6 (by decide)]
  decide

@[simp] theorem take6_failed_process_clfs (s : String) :
    ("Failed to process Medicare Clinical Fees: " ++ s).data.take 6 = "Failed".data := by
  rw [take_data_append _ _ 6 (by decide)]
  decide

@[simp] theorem take6_failed_process_nj (s : String) :
    ("Failed to process New Jersey DOBI: " ++ s).data.take 6 = "Failed".data := by
  rw [take_data_append _ _ 6 (by decide)]
  decide

@[simp] theorem take6_failed_process_nj_api (s : String) :
    ("Failed to process New Jersey DOBI: API Error - " ++ s).data.take 6 = "Failed".data := by
  rw [take_data_append _ _ 6 (by decide)]
  decide

@[simp] theorem take6_big_failed (s : String) :
    ("FAILED: " ++ s).data.take 6 = "FAILED".data := by
  rw [take_data_append _ _ 6 (by decide)]
  decide

/-- Claim C6, amended: whenever a run raises, a best-effort failure entry
was written to the log sink before re-raising; the entry's message begins
with `"Failed"` in the Facility, CLFS and DOBI pipelines but with `"FAILED"`
in the Physician pipeline; a failing select or insert is never swallowed. -/
theorem C6_failure_logged_then_raised : ∀ env records, records ≠ [] → C6_prop env records := by
  intro env records hne
  obtain ⟨s, a, d, i, l, n⟩ := env
  cases records with
  | nil => exact absurd rfl hne
  | cons r0 rs =>
    unfold C6_prop
    rcases s with se | existing
    · rcases se with ⟨m, dd⟩ | m <;> simp
    · rcases existing with _ | ⟨x, xs⟩
      · rcases i with ie | idata
        · rcases ie with ⟨m, dd⟩ | m <;> simp
        · simp
      · rcases a with ae | _
        · rcases ae with ⟨m, dd⟩ | m <;> simp
        · rcases d with de | _
          · rcases de with ⟨m, dd⟩ | m <;> simp
          · rcases i with ie | idata
            · rcases ie with ⟨m, dd⟩ | m <;> simp
            · simp

/-- Claim C6 counterexample: a failing Physician run logs exactly one
failure entry and its message starts with `"FAILED: "`, not `"Failed"`. -/
theorem C6_counterexample_physician_fail_marker :
    (SupabaseHandlerPhysician.insert_records C6_env sampleNew) =
      ([Event.selectCall "updated_medical_benchmarking_data"
          (DFilter.inList "data_type" ["Physician USA", "Physician 070"]),
        Event.logCall "logging_table"
          ⟨"Fairhealth Physician",
           "FAILED: Failed to process Fairhealth Physician: boom"⟩],
       .raised (.generic "boom"))
    ∧ ("FAILED: Failed to process Fairhealth Physician: boom").data.take 6 ≠ "Failed".data := by
  refine ⟨by decide, by decide⟩

/-- Claim C7: in all four pipelines a log-sink failure is caught inside
`_log_operation` and reported on the operational console only; the outcome of
`insert_records` is identical under any two log-sink responses. -/
theorem C7_log_sink_never_propagates : ∀ env env2 records, C7_prop env env2 records := by
  intro env env2 records
  obtain ⟨s, a, d, i, l, n⟩ := env
  obtain ⟨s2, a2, d2, i2, l2, n2⟩ := env2
  unfold C7_prop
  constructor
  · intro h1 h2 h3 h4 h5
    have hs : s = s2 := h1
    have ha : a = a2 := h2
    have hd : d = d2 := h3
    have hi : i = i2 := h4
    have hn : n = n2 := h5
    subst hs; subst ha; subst hd; subst hi; subst hn
    cases records with
    | nil => simp
    | cons r0 rs =>
      rcases s with se | existing
      · simp
      · rcases existing with _ | ⟨x, xs⟩
        · rcases i with ie | idata <;> simp
        · rcases a with ae | _
          · simp
          · rcases d with de | _
            · simp
            · rcases i with ie | idata <;> simp
  · intro e m b hl
    have hle : l = .error e := hl
    subst hle
    refine ⟨?_, ?_, ?_, ?_⟩ <;>
      simp [SupabaseHandlerFairHealth._log_operation, SupabaseHandlerPhysician._log_operation,
            SupabaseHandlerCLFS._log_operation, SupabaseHandler._log_operation]

/-- Claim C9: every CLFS and DOBI result carries a `records_deleted` key;
it is 0 in the `no_records` result and equals `records_archived` (the step-1
select count) on success, the delete call's own response never being read. -/
theorem C9_records_deleted_field : ∀ env records, C9_prop env records := by
  intro env records
  obtain ⟨s, a, d, i, l, n⟩ := env
  unfold C9_prop
  refine ⟨⟨rfl, by decide⟩, ⟨rfl, by decide⟩, ?_, ?_, ?_, ?_⟩
  · cases records with
    | nil => simp
    | cons r0 rs =>
      rcases s with se | existing
      · simp
      · rcases existing with _ | ⟨x, xs⟩
        · rcases i with ie | idata <;> simp
        · rcases a with ae | _
          · simp
          · rcases d with de | _
            · simp
            · rcases i with ie | idata <;> simp
  · cases records with
    | nil => simp
    | cons r0 rs =>
      rcases s with se | existing
      · simp
      · rcases existing with _ | ⟨x, xs⟩
        · rcases i with ie | idata <;> simp
        · rcases a with ae | _
          · simp
          · rcases d with de | _
            · simp
            · rcases i with ie | idata <;> simp
  · intro existing r hsel hne hok
    have hs : s = .ok existing := hsel
    subst hs
    cases records with
    | nil => exact absurd rfl hne
    | cons r0 rs =>
      rcases existing with _ | ⟨x, xs⟩
      · rcases i with ie | idata
        · simp at hok
        · simp at hok
          subst hok
          simp
      · rcases a with ae | _
        · simp at hok
        · rcases d with de | _
          · simp at hok
          · rcases i with ie | idata
            · simp at hok
            · simp at hok
              subst hok
              simp
  · intro existing r hsel hne hok
    have hs : s = .ok existing := hsel
    subst hs
    cases records with
    | nil => exact absurd rfl hne
    | cons r0 rs =>
      rcases existing with _ | ⟨x, xs⟩
      · rcases i with ie | idata
        · simp at hok
        · simp at hok
          subst hok
          simp
      · rcases a with ae | _
        · simp at hok
        · rcases d with de | _
          · simp at hok
          · rcases i with ie | idata
            · simp at hok
            · simp at hok
              subst hok
              simp

theorem append_ne_self (p m : String) (hp : p.length ≠ 0) : p ++ m ≠ m := by
  intro h
  have hlen := congrArg String.length h
  rw [String.length_append] at hlen
  omega

/-- Claim C8: a failing CLFS run always raises a NEW plain exception with
message `"Failed to process Medicare Clinical Fees: <original message>"`
(never the original exception object); a DOBI run does the same for non-API
errors while re-raising `APIError`s as-is. -/
theorem C8_generic_rewrapping : ∀ env records, C8_prop env records := by
  intro env records
  obtain ⟨s, a, d, i, l, n⟩ := env
  unfold C8_prop
  refine ⟨?_, ?_, ?_, ?_, ?_⟩
  · cases records with
    | nil => simp
    | cons r0 rs =>
      rcases s with se | existing
      · simp
      · rcases existing with _ | ⟨x, xs⟩
        · rcases i with ie | idata <;> simp
        · rcases a with ae | _
          · simp
          · rcases d with de | _
            · simp
            · rcases i with ie | idata <;> simp
  · intro e hsel hne
    have hs : s = .error e := hsel
    subst hs
    cases records with
    | nil => exact absurd rfl hne
    | cons r0 rs =>
      constructor
      · simp
      · intro e2 he2
        simp at he2
        subst he2
        rcases e with ⟨m, dd⟩ | m
        · simp
        · simp [PyExc.str]
          exact fun hh => append_ne_self "Failed to process Medicare Clinical Fees: " m (by decide) hh
  · cases records with
    | nil => simp
    | cons r0 rs =>
      rcases s with se | existing
      · rcases se with ⟨m, dd⟩ | m <;> simp
      · rcases existing with _ | ⟨x, xs⟩
        · rcases i with ie | idata
          · rcases ie with ⟨m, dd⟩ | m <;> simp
          · simp
        · rcases a with ae | _
          · rcases ae with ⟨m, dd⟩ | m <;> simp
          · rcases d with de | _
            · rcases de with ⟨m, dd⟩ | m <;> simp
            · rcases i with ie | idata
              · rcases ie with ⟨m, dd⟩ | m <;> simp
              · simp
  · intro m hsel hne
    have hs : s = .error (.generic m) := hsel
    subst hs
    cases records with
    | nil => exact absurd rfl hne
    | cons r0 rs =>
      constructor
      · simp
      · intro e2 he2
        simp at he2
        subst he2
        simp
        exact fun hh => append_ne_self "Failed to process New Jersey DOBI: " m (by decide) hh
  · intro m dd hsel hne
    have hs : s = .error (.apiError m dd) := hsel
    subst hs
    cases records with
    | nil => exact absurd rfl hne
    | cons r0 rs => simp

@[simp] theorem setAt2_five (f : DataProcessorASC.Cell → DataProcessorASC.Cell)
    (a b c d e : DataProcessorASC.Cell) :
    DataProcessorASC.setAt 2 f [a, b, c, d, e] = [a, b, f c, d, e] := rfl

@[simp] theorem nanToNone_isNull (c : DataProcessorASC.Cell) :
    (DataProcessorASC.nanToNone c).isNull = c.isNull := by
  cases c <;> rfl

theorem nanToNone_not_null (c : DataProcessorASC.Cell) (h : c.isNull = false) :
    DataProcessorASC.nanToNone c = c := by
  cases c <;> simp_all [DataProcessorASC.Cell.isNull, DataProcessorASC.nanToNone]

theorem cell_num_or_null (c : DataProcessorASC.Cell) :
    (∃ q, DataProcessorASC.nanToNone (DataProcessorASC.toNumericCoerce c) =
        DataProcessorASC.Cell.num q)
    ∨ DataProcessorASC.nanToNone (DataProcessorASC.toNumericCoerce c) =
        DataProcessorASC.Cell.null := by
  rcases c with sv | q | _ | _
  · rcases h : DataProcessorASC.parseNumber sv with _ | q
    · right
      simp [DataProcessorASC.toNumericCoerce, h, DataProcessorASC.nanToNone]
    · left
      exact ⟨q, by simp [DataProcessorASC.toNumericCoerce, h, DataProcessorASC.nanToNone]⟩
  · left
    exact ⟨q, rfl⟩
  · right
    rfl
  · right
    rfl

/-- Claim C10: every row of a DataFrame returned by `clean_data` has
`data_type = "Medicare Facility"`, a non-null code that is non-empty after
`str(...).strip()`, `rel_date` equal to the text extracted from the
payment-rate column header, and an `80th` value that is numeric or `None`,
never `NaN`. -/
theorem C10_clean_data_row_shape :
    ∀ df out, DataProcessorASC.clean_data df = .ok out → C10_prop df out := by
  intro df out h row hrow
  unfold DataProcessorASC.clean_data at h
  rcases h1 : DataProcessorASC.findCol DataProcessorASC.SOURCE_HCPCS_COL df.columns
      with _ | hcpcs_idx <;> rw [h1] at h
  · simp at h
  rcases h2 : DataProcessorASC.findCol DataProcessorASC.SOURCE_DESC_COL df.columns
      with _ | desc_idx <;> rw [h2] at h
  · simp at h
  rcases h3 : DataProcessorASC.findCol DataProcessorASC.SOURCE_RATE_MARKER df.columns
      with _ | rate_idx <;> rw [h3] at h
  · simp at h
  dsimp only at h
  injection h with h
  subst h
  dsimp only at hrow
  rw [List.mem_filter] at hrow
  obtain ⟨hrow, -⟩ := hrow
  rw [List.mem_map] at hrow
  obtain ⟨r1, hr1, rfl⟩ := hrow
  rw [List.mem_map] at hr1
  obtain ⟨r2, hr2, rfl⟩ := hr1
  rw [List.mem_filter] at hr2
  obtain ⟨hr2, hlen⟩ := hr2
  rw [List.mem_filter] at hr2
  obtain ⟨hr2, hnull⟩ := hr2
  rw [List.mem_map] at hr2
  obtain ⟨r3, hr3, rfl⟩ := hr2
  simp only [List.cons_append, List.nil_append] at hnull hlen ⊢
  simp at hnull hlen
  refine ⟨?_, ?_, ?_, ?_, ?_⟩
  · simp [DataProcessorASC.nanToNone]
  · simp [hnull]
  · have hid : DataProcessorASC.nanToNone (r3[hcpcs_idx]?.getD DataProcessorASC.Cell.nan) =
        r3[hcpcs_idx]?.getD DataProcessorASC.Cell.nan := nanToNone_not_null _ hnull
    simp [hid]
    exact hlen
  · refine ⟨rate_idx, by simp [h3], ?_⟩
    simp [DataProcessorASC.nanToNone]
  · have h5 := cell_num_or_null (r3.getD rate_idx DataProcessorASC.Cell.nan)
    simpa using h5

/-- C2 counterexample: a CLFS run requesting two records while the store's
insert response reports only one persisted record still returns
`records_inserted = 2` — the length of the input list, not the count the
store reported. -/
theorem C2_counterexample_clfs_ignores_response :
    (SupabaseHandlerCLFS.insert_records C2_env C2_records).2 =
      .ok (SupabaseHandlerCLFS.success_result 2 0)
    ∧ C2_env.insertResp = .ok (some [[("code", Value.s "A")]])
    ∧ ([[("code", Value.s "A")]] : List Record).length = 1
    ∧ (SupabaseHandlerCLFS.success_result 2 0).lookup "records_inserted" = some (RVal.n 2)
    ∧ (2 : Nat) ≠ 1 := by
  refine ⟨by decide, by decide, by decide, by decide, by decide⟩

/-- Witness for C1 at a concrete environment and batch. -/
theorem C1_witness : sampleNew ≠ [] ∧ C1_prop envOk sampleNew :=
  ⟨by decide, C1_archive_strictly_before_delete envOk sampleNew (by decide)⟩

/-- Witness for C2 at a concrete environment and batch. -/
theorem C2_witness :
    (SupabaseHandlerCLFS.success_result 2 0).lookup "records_inserted" =
      some (RVal.n C2_records.length) :=
  (C2_records_inserted C2_env C2_records).2.2.1 (SupabaseHandlerCLFS.success_result 2 0)
    (by decide) (by decide)

/-- Witness for C4 at a concrete environment and batch. -/
theorem C4_witness :
    ((SupabaseHandlerFairHealth.success_result 1 1).lookup "status" = some (RVal.s "success")
      ∨ (SupabaseHandlerFairHealth.success_result 1 1).lookup "status" =
          some (RVal.s "no_records"))
    ∧ ((SupabaseHandlerFairHealth.success_result 1 1).lookup "records_inserted").isSome
    ∧ ((SupabaseHandlerFairHealth.success_result 1 1).lookup "records_archived").isSome
    ∧ (SupabaseHandlerFairHealth.success_result 1 1).lookup "table" =
        some (RVal.s SupabaseHandlerFairHealth.updated_table) :=
  (C4_result_fields envOk sampleNew).1 (SupabaseHandlerFairHealth.success_result 1 1) (by decide)

/-- Witness for C5 at a concrete environment and batch. -/
theorem C5_witness :
    Event.insertCall SupabaseHandlerFairHealth.historical_table ([sampleRecord].map strip_id)
      ∈ (SupabaseHandlerFairHealth.insert_records envOk sampleNew).1 :=
  (C5_historical_records_strip_id envOk sampleNew).2.2.2.1 [sampleRecord]
    (by decide) (by decide) (by decide)

/-- Witness for C6 at a concrete environment and batch. -/
theorem C6_witness : sampleNew ≠ [] ∧ C6_prop C6_env sampleNew :=
  ⟨by decide, C6_failure_logged_then_raised C6_env sampleNew (by decide)⟩

/-- Witness for C7 at a concrete pair of environments differing only in the
log-sink response. -/
theorem C7_witness :
    (SupabaseHandlerFairHealth.insert_records envOk sampleNew).2 =
      (SupabaseHandlerFairHealth.insert_records C7_env2 sampleNew).2 :=
  ((C7_log_sink_never_propagates envOk C7_env2 sampleNew).1 rfl rfl rfl rfl rfl).1

/-- Witness for C8 at a concrete environment and batch. -/
theorem C8_witness :
    (SupabaseHandlerCLFS.insert_records C6_env sampleNew).2 =
      .raised (.generic ("Failed to process " ++ SupabaseHandlerCLFS.script_name ++ ": " ++
        (PyExc.generic "boom").str)) :=
  ((C8_generic_rewrapping C6_env sampleNew).2.1 (.generic "boom") (by decide) (by decide)).1

/-- Witness for C9 at a concrete environment and batch. -/
theorem C9_witness :
    (SupabaseHandlerCLFS.success_result 1 1).lookup "records_deleted" =
      some (RVal.n ([sampleRecord] : List Record).length) :=
  (C9_records_deleted_field envOk sampleNew).2.2.2.2.1 [sampleRecord]
    (SupabaseHandlerCLFS.success_result 1 1) (by decide) (by decide) (by decide)

/-- Witness for C10 at a concrete raw sheet. -/
theorem C10_witness :
    DataProcessorASC.clean_data sampleDF = .ok sampleDFOut ∧ C10_prop sampleDF sampleDFOut :=
  ⟨by decide, C10_clean_data_row_shape sampleDF sampleDFOut (by decide)⟩
